import Mathlib

/-!
Shallow embedding of the EZVIZ stream-capture package
(`ezviz_stream.py` and `ezviz-camera/stream_manager.py`).

Byte strings are modelled as `List Nat` (each entry the value of one byte);
a Python function that can raise is modelled as `Option`/`Except`.
-/

namespace EzvizConfig

/-- `EzvizConfig.REGIONS`: the region-name → region-code dictionary,
in source order. -/
def REGIONS : List (String × String) :=
  [("Europe", "ieu"),
   ("Africa", "ieu"),
   ("Asia", "isgp"),
   ("NorthAmerica", "ius"),
   ("Oceania", "ius"),
   ("SouthAmerica", "isa")]

/-- `EzvizConfig.MAGIC_BYTE`. -/
def MAGIC_BYTE : Nat := 0x24

/-- `EzvizConfig.MSG_STREAMINFO_REQ`. -/
def MSG_STREAMINFO_REQ : Nat := 0x13b

end EzvizConfig

namespace EzvizAPI

/-- `EzvizAPI.__init__`: `self.region_code = EzvizConfig.REGIONS.get(region, "ieu")`. -/
def region_code (region : String) : String :=
  match EzvizConfig.REGIONS.lookup region with
  | some c => c
  | none => "ieu"

/-- `EzvizAPI.__init__`: `self.api_url = f"https://api{self.region_code}.ezvizlife.com"`. -/
def api_url (region : String) : String :=
  "https://api" ++ region_code region ++ ".ezvizlife.com"

/-- `EzvizAPI.get_vtdu_tokens`, JWT padding step:
`padding = 4 - len(payload) % 4; if padding != 4: payload += '=' * padding`. -/
def jwt_pad (payload : String) : String :=
  let padding := 4 - payload.length % 4
  if padding ≠ 4 then payload ++ String.mk (List.replicate padding '=') else payload

/-- `EzvizAPI.get_vtdu_tokens`, signing-claim step: `sign = claims.get("s");
if not sign: raise Exception("No 's' field in JWT claims")`.  The decoded JSON
object is modelled as an association list; a missing key gives `none`, and a
present-but-falsy (empty) string is also rejected by `if not sign`. -/
def extract_sign (claims : List (String × String)) : Except String String :=
  match claims.lookup "s" with
  | some sg => if sg = "" then .error "No 's' field in JWT claims" else .ok sg
  | none => .error "No 's' field in JWT claims"

end EzvizAPI

namespace VTMPacket

/-- The decoded header dictionary returned by `VTMPacket.decode_header`. -/
structure Header where
  magic : Nat
  channel : Nat
  length : Nat
  sequence : Nat
  message_code : Nat
  deriving Repr, DecidableEq

/-- `VTMPacket.encode`: `struct.pack('>BBHHH', MAGIC_BYTE, channel, len(data),
sequence, message_code)` followed by the payload.  `struct.pack` raises
`struct.error` when a `B` argument exceeds 255 or an `H` argument exceeds
65535; that failure is modelled as `none`.  A big-endian `u16` value `x`
packs to the two bytes `x / 256` and `x % 256`. -/
def encode (data : List Nat) (message_code : Nat) (channel : Nat := 0)
    (sequence : Nat := 0) : Option (List Nat) :=
  if channel > 255 ∨ data.length > 65535 ∨ sequence > 65535 ∨ message_code > 65535 then
    none
  else
    some ([EzvizConfig.MAGIC_BYTE, channel,
           data.length / 256, data.length % 256,
           sequence / 256, sequence % 256,
           message_code / 256, message_code % 256] ++ data)

/-- `VTMPacket.decode_header`: raises `ValueError` when the input is not
exactly 8 bytes, unpacks `'>BBHHH'`, raises `ValueError` when the magic byte
differs from `0x24`, and otherwise returns the header fields.  Unpacking a
big-endian `u16` from bytes `hi, lo` yields `hi * 256 + lo`. -/
def decode_header (header : List Nat) : Except String Header :=
  match header with
  | [b0, b1, b2, b3, b4, b5, b6, b7] =>
    if b0 ≠ EzvizConfig.MAGIC_BYTE then
      .error "Invalid magic byte"
    else
      .ok ⟨b0, b1, b2 * 256 + b3, b4 * 256 + b5, b6 * 256 + b7⟩
  | _ => .error "Invalid header length"

end VTMPacket

namespace ProtobufEncoder

/-- `ProtobufEncoder.encode_varint`: emit 7 bits per byte, low group first,
continuation bit `0x80` on every byte except the last.  On a nonnegative
integer, `value & 0x7f` is `value % 128`, `value >> 7` is `value / 128`,
and `| 0x80` on a value below 128 adds 128. -/
def encode_varint (value : Nat) : List Nat :=
  if h : value > 0x7f then
    (value % 0x80 + 0x80) :: encode_varint (value / 0x80)
  else
    [value % 0x80]
decreasing_by
  exact Nat.div_lt_self (by omega) (by omega)

/-- Value denoted by a little-endian base-128 varint byte list: each byte
contributes its low 7 data bits. -/
def varint_val : List Nat → Nat
  | [] => 0
  | b :: rest => b % 0x80 + 0x80 * varint_val rest

/-- `ProtobufEncoder.encode_string`: tag `(field_number << 3) | 2`, then the
varint-encoded byte length, then the UTF-8 bytes of the value (the value is
modelled directly as its UTF-8 byte list). -/
def encode_string (field_number : Nat) (value : List Nat) : List Nat :=
  encode_varint ((field_number <<< 3) ||| 2) ++ encode_varint value.length ++ value

/-- `ProtobufEncoder.encode_int32`: tag `(field_number << 3) | 0`, then the
varint-encoded value. -/
def encode_int32 (field_number : Nat) (value : Nat) : List Nat :=
  encode_varint ((field_number <<< 3) ||| 0) ++ encode_varint value

/-- UTF-8 bytes of the client version string `"v3.6.3.20221124"`. -/
def clientVersionBytes : List Nat :=
  [0x76, 0x33, 0x2e, 0x36, 0x2e, 0x33, 0x2e,
   0x32, 0x30, 0x32, 0x32, 0x31, 0x31, 0x32, 0x34]

/-- `ProtobufEncoder.create_stream_info_req`: field 1 = stream URL, field 2 =
VTM stream key only when truthy (non-empty), field 3 = client version,
field 4 = integer 0, field 6 = client version again. -/
def create_stream_info_req (stream_url : List Nat)
    (vtm_stream_key : List Nat := []) : List Nat :=
  encode_string 1 stream_url
    ++ (if vtm_stream_key ≠ [] then encode_string 2 vtm_stream_key else [])
    ++ encode_string 3 clientVersionBytes
    ++ encode_int32 4 0
    ++ encode_string 6 clientVersionBytes

end ProtobufEncoder

namespace StreamManager

/-- A supervised `subprocess.Popen` handle.  `alive` models
`poll() is None`; `termWaitOk` models whether `terminate()` followed by
`wait(timeout=5)` completes without raising (a timeout or any other failure
raises); `killOk` models whether the fallback `kill()` completes without
raising. -/
structure Proc where
  alive : Bool
  termWaitOk : Bool
  killOk : Bool
  deriving Repr, DecidableEq

/-- The lock-guarded mutable state of `StreamManager`: `running`, the
ffmpeg/segmenter handle `self.process`, the capture handle
`self._python_proc` (absent attribute or `None` both modelled as `none`),
`last_activity`, `restart_count`, and the configured `idle_timeout`.
Time is modelled in whole seconds as `Nat`. -/
structure ManagerState where
  running : Bool
  process : Option Proc
  pythonProc : Option Proc
  lastActivity : Nat
  restartCount : Nat
  idleTimeout : Nat
  deriving Repr, DecidableEq

/-- Python truthiness of `self.process and self.process.poll() is None`. -/
def procAlive : Option Proc → Bool
  | none => false
  | some p => p.alive

/-- `StreamManager.start_stream` at time `now`.  `pyP` and `ffP` are the
handles `subprocess.Popen` returns for the capture and segmenter commands
when the spawning branch runs (a freshly spawned process has
`poll() is None`).  The monitor-thread bookkeeping at the end of the
method touches no state modelled here. -/
def start_stream (s : ManagerState) (pyP ffP : Proc) (now : Nat) : ManagerState :=
  if s.running && procAlive s.process then
    { s with lastActivity := now }
  else
    { s with
      restartCount := s.restartCount + 1,
      pythonProc := some pyP,
      process := some ffP,
      running := true,
      lastActivity := now }

/-- Outcome of one `try: p.terminate(); p.wait(timeout=5) except: p.kill()`
block guarded by `if <handle>:`.  It completes normally unless both the
graceful path and the fallback `kill()` raise; a `kill()` exception is not
caught by anything in `stop_stream`. -/
def stopProcOk : Option Proc → Bool
  | none => true
  | some p => p.termWaitOk || p.killOk

/-- `StreamManager.stop_stream`.  `.ok s'` is a normal return with final
state `s'`; `.error s'` means an uncaught exception propagated to the
caller while the object was left in state `s'`.  The python (capture)
process is handled first, then the ffmpeg process, then both handles are
cleared. -/
def stop_stream (s : ManagerState) : Except ManagerState ManagerState :=
  if !s.running then .ok s
  else
    let s1 := { s with running := false }
    if !stopProcOk s1.pythonProc then .error s1
    else if !stopProcOk s1.process then .error s1
    else .ok { s1 with process := none, pythonProc := none }

/-- `StreamManager.touch_activity`. -/
def touch_activity (s : ManagerState) (now : Nat) : ManagerState :=
  { s with lastActivity := now }

/-- `StreamManager.is_streaming`: truthiness of
`self.running and self.process and self.process.poll() is None`. -/
def is_streaming (s : ManagerState) : Bool :=
  s.running && procAlive s.process

/-- One iteration of `StreamManager._monitor_loop` at time `now` (after the
1-second sleep).  Inside the lock: `continue` when not running, else clear
`running` when `now - last_activity` exceeds the idle timeout.  Outside the
lock: when not running and `self.process` is set, call `stop_stream()`
(followed by the best-effort `_cleanup_segments()`, which touches no state
modelled here). -/
def monitor_tick (s : ManagerState) (now : Nat) : Except ManagerState ManagerState :=
  if !s.running then .ok s
  else
    let s1 := if now - s.lastActivity > s.idleTimeout then { s with running := false } else s
    if !s1.running && s1.process.isSome then stop_stream s1
    else .ok s1

end StreamManager

section Lemmas

/-- A value that already fits in 7 bits encodes as a single varint byte. -/
theorem encode_varint_le127 (v : Nat) (h : v ≤ 0x7f) :
    ProtobufEncoder.encode_varint v = [v] := by
  rw [ProtobufEncoder.encode_varint, dif_neg (by omega), Nat.mod_eq_of_lt (by omega)]

/-- Decoding a varint recovers the encoded value. -/
theorem varint_val_encode (v : Nat) :
    ProtobufEncoder.varint_val (ProtobufEncoder.encode_varint v) = v := by
  induction v using Nat.strong_induction_on with
  | _ v ih =>
    rw [ProtobufEncoder.encode_varint]
    split
    · rename_i h
      rw [ProtobufEncoder.varint_val, ih (v / 0x80) (Nat.div_lt_self (by omega) (by omega))]
      omega
    · rw [ProtobufEncoder.varint_val, ProtobufEncoder.varint_val]
      omega

/-- A varint is a nonempty byte list whose final byte has the continuation
bit clear and all earlier bytes have it set. -/
theorem encode_varint_shape (v : Nat) :
    ∃ init last, ProtobufEncoder.encode_varint v = init ++ [last] ∧
      last < 0x80 ∧ init.all (fun b => decide (0x80 ≤ b)) = true := by
  induction v using Nat.strong_induction_on with
  | _ v ih =>
    rw [ProtobufEncoder.encode_varint]
    split
    · rename_i h
      obtain ⟨init, last, heq, hlast, hinit⟩ :=
        ih (v / 0x80) (Nat.div_lt_self (by omega) (by omega))
      refine ⟨(v % 0x80 + 0x80) :: init, last, ?_, hlast, ?_⟩
      · rw [heq, List.cons_append]
      · simp [List.all_cons, hinit]
    · exact ⟨[], v % 0x80, rfl, by omega, rfl⟩

end Lemmas

/-- **C1** (amended: channel restricted to one byte).  For every payload of
at most 65535 bytes and message code, sequence in `[0, 65535]` and channel
in `[0, 255]`, `VTMPacket.encode` succeeds, decoding the first 8 bytes of
the frame succeeds and returns exactly that channel, the payload length,
that sequence and that message code, and the frame bytes after the header
equal the payload. -/
theorem claim1_encode_decode_roundtrip (payload : List Nat) (mc ch sq : Nat)
    (_hbytes : ∀ b ∈ payload, b < 256)
    (hp : payload.length ≤ 65535) (hm : mc ≤ 65535) (hc : ch ≤ 255) (hs : sq ≤ 65535) :
    ∃ frame, VTMPacket.encode payload mc ch sq = some frame ∧
      VTMPacket.decode_header (frame.take 8) =
        .ok ⟨EzvizConfig.MAGIC_BYTE, ch, payload.length, sq, mc⟩ ∧
      frame.drop 8 = payload := by
  rw [VTMPacket.encode, if_neg (by omega)]
  refine ⟨_, rfl, ?_, ?_⟩
  · rw [List.take_left' (by simp)]
    have h2 : payload.length / 256 * 256 + payload.length % 256 = payload.length := by omega
    have h3 : sq / 256 * 256 + sq % 256 = sq := by omega
    have h4 : mc / 256 * 256 + mc % 256 = mc := by omega
    simp only [VTMPacket.decode_header, ne_eq, not_true_eq_false, reduceIte, if_neg,
      h2, h3, h4]
  · rw [List.drop_left' (by simp)]

/-- **C1 counterexample.**  The claim quantifies the channel over
`[0, 65535]`, but `struct.pack('>BBHHH', ...)` packs the channel as a single
byte and raises `struct.error` for any channel above 255, so at channel 256
no frame is produced at all. -/
theorem claim1_channel_256_fails :
    (256 : Nat) ≤ 65535 ∧ VTMPacket.encode [] 0 256 0 = none := by
  exact ⟨by omega, rfl⟩

/-- **C1 witness.** -/
theorem claim1_encode_decode_roundtrip_witness :
    ∃ frame, VTMPacket.encode [9, 8] 0x13b 1 7 = some frame ∧
      VTMPacket.decode_header (frame.take 8) =
        .ok ⟨EzvizConfig.MAGIC_BYTE, 1, 2, 7, 0x13b⟩ ∧
      frame.drop 8 = [9, 8] :=
  claim1_encode_decode_roundtrip [9, 8] 0x13b 1 7
    (by decide) (by decide) (by decide) (by decide) (by decide)

/-- **C8.**  `decode_header` fails exactly when the input is not 8 bytes or
its first byte differs from the sentinel `0x24`: on byte strings, decoding
succeeds if and only if the length is 8 and the first byte is `0x24`. -/
theorem claim8_decode_header_domain (h : List Nat) (_hb : ∀ b ∈ h, b < 256) :
    (∃ v, VTMPacket.decode_header h = .ok v) ↔
      (h.length = 8 ∧ h.head? = some EzvizConfig.MAGIC_BYTE) := by
  rcases h with _ | ⟨b0, _ | ⟨b1, _ | ⟨b2, _ | ⟨b3, _ |
    ⟨b4, _ | ⟨b5, _ | ⟨b6, _ | ⟨b7, _ | ⟨b8, t⟩⟩⟩⟩⟩⟩⟩⟩⟩
  case cons.cons.cons.cons.cons.cons.cons.cons.nil =>
    by_cases hb0 : b0 = EzvizConfig.MAGIC_BYTE
    · subst hb0
      simp [VTMPacket.decode_header]
    · simp [VTMPacket.decode_header, hb0]
  all_goals simp [VTMPacket.decode_header]

/-- **C8 witness.** -/
theorem claim8_decode_header_domain_witness :
    (∃ v, VTMPacket.decode_header [0x24, 1, 0, 2, 0, 7, 1, 0x3b] = .ok v) ↔
      ([0x24, 1, 0, 2, 0, 7, 1, 0x3b].length = 8 ∧
        [0x24, 1, 0, 2, 0, 7, 1, 0x3b].head? = some EzvizConfig.MAGIC_BYTE) :=
  claim8_decode_header_domain [0x24, 1, 0, 2, 0, 7, 1, 0x3b] (by decide)

/-- **C3 counterexample.**  The claim says five region families resolve to
one of three API hosts, but `EzvizConfig.REGIONS` has six region strings
and they resolve to four distinct API hosts. -/
theorem claim3_six_regions_four_hosts :
    EzvizConfig.REGIONS.length = 6 ∧
    (EzvizConfig.REGIONS.map fun p => EzvizAPI.api_url p.1).dedup =
      ["https://apiieu.ezvizlife.com", "https://apiisgp.ezvizlife.com",
       "https://apiius.ezvizlife.com", "https://apiisa.ezvizlife.com"] := by
  exact ⟨rfl, by decide⟩

/-- **C3** (amended: six region strings, four hosts).  The region-to-host
resolution is a fixed total mapping: the six region strings of
`EzvizConfig.REGIONS` resolve to one of four API hosts, and every region
string not in the mapping resolves to the same host as `"Europe"` (the
fallback region code `"ieu"`). -/
theorem claim3_region_host_mapping :
    (∀ r : String, EzvizConfig.REGIONS.lookup r = none →
      EzvizAPI.api_url r = EzvizAPI.api_url "Europe") ∧
    EzvizConfig.REGIONS.length = 6 ∧
    (EzvizConfig.REGIONS.map fun p => EzvizAPI.api_url p.1).dedup.length = 4 := by
  refine ⟨fun r hr => ?_, rfl, by decide⟩
  unfold EzvizAPI.api_url EzvizAPI.region_code
  rw [hr]
  decide

/-- **C3 witness.** -/
theorem claim3_region_host_mapping_witness :
    EzvizAPI.api_url "Atlantis" = EzvizAPI.api_url "Europe" :=
  claim3_region_host_mapping.1 "Atlantis" (by decide)

/-- **C7.**  The relay-token retrieval pads the middle token segment with
exactly `4 - (len % 4)` `'='` characters and applies no padding when
`len % 4 = 0`; a segment of length 11 gets exactly one `'='`, one of length
12 gets none; and when the decoded claims object lacks the signing claim
`"s"`, the operation fails with the authentication error. -/
theorem claim7_jwt_padding_and_sign :
    (∀ p : String, (EzvizAPI.jwt_pad p).length =
      p.length + (if p.length % 4 = 0 then 0 else 4 - p.length % 4)) ∧
    (∀ p : String, p.length = 11 → EzvizAPI.jwt_pad p = p ++ "=") ∧
    (∀ p : String, p.length = 12 → EzvizAPI.jwt_pad p = p) ∧
    (∀ cs : List (String × String), cs.lookup "s" = none →
      EzvizAPI.extract_sign cs = .error "No 's' field in JWT claims") := by
  refine ⟨fun p => ?_, fun p hp => ?_, fun p hp => ?_, fun cs hcs => ?_⟩
  · unfold EzvizAPI.jwt_pad
    by_cases h : p.length % 4 = 0
    · rw [if_neg (by omega), if_pos h]
      omega
    · rw [if_pos (by omega), if_neg h, String.length_append]
      congr 1
      show (List.replicate (4 - p.length % 4) '=').length = _
      rw [List.length_replicate]
  · unfold EzvizAPI.jwt_pad
    rw [hp]
    norm_num
  · unfold EzvizAPI.jwt_pad
    rw [hp]
    norm_num
  · unfold EzvizAPI.extract_sign
    rw [hcs]

/-- **C7 witness.** -/
theorem claim7_jwt_padding_and_sign_witness :
    EzvizAPI.jwt_pad "abcdefghijk" = "abcdefghijk" ++ "=" ∧
    EzvizAPI.jwt_pad "abcdefghijkl" = "abcdefghijkl" ∧
    EzvizAPI.extract_sign [("u", "alice")] = .error "No 's' field in JWT claims" :=
  ⟨claim7_jwt_padding_and_sign.2.1 "abcdefghijk" (by decide),
   claim7_jwt_padding_and_sign.2.2.1 "abcdefghijkl" (by decide),
   claim7_jwt_padding_and_sign.2.2.2 [("u", "alice")] (by decide)⟩

/-- **C9.**  The negotiation message is, in byte order: field 1 = stream URL
(tag `0x0a`, varint length prefix), then field 2 = relay stream key (tag
`0x12`) present iff the key is non-empty, then field 3 = client version
(tag `0x1a`), then field 4 = integer 0 (tag `0x20`, wire type 0), then
field 6 = client version again (tag `0x32`); and every varint is base-128,
low group first, continuation bit `0x80` on all bytes but the last. -/
theorem claim9_stream_info_req_layout :
    (∀ url key : List Nat,
      ProtobufEncoder.create_stream_info_req url key =
        ([0x0a] ++ ProtobufEncoder.encode_varint url.length ++ url)
        ++ (if key = [] then []
            else [0x12] ++ ProtobufEncoder.encode_varint key.length ++ key)
        ++ ([0x1a, 15] ++ ProtobufEncoder.clientVersionBytes)
        ++ [0x20, 0]
        ++ ([0x32, 15] ++ ProtobufEncoder.clientVersionBytes)) ∧
    (∀ v, ProtobufEncoder.varint_val (ProtobufEncoder.encode_varint v) = v) ∧
    (∀ v, ∃ init last, ProtobufEncoder.encode_varint v = init ++ [last] ∧
      last < 0x80 ∧ init.all (fun b => decide (0x80 ≤ b)) = true) := by
  refine ⟨fun url key => ?_, varint_val_encode, encode_varint_shape⟩
  have t1 : ((1 : Nat) <<< 3) ||| 2 = 10 := by decide
  have t2 : ((2 : Nat) <<< 3) ||| 2 = 18 := by decide
  have t3 : ((3 : Nat) <<< 3) ||| 2 = 26 := by decide
  have t4 : ((4 : Nat) <<< 3) ||| 0 = 32 := by decide
  have t6 : ((6 : Nat) <<< 3) ||| 2 = 50 := by decide
  have hv : ProtobufEncoder.clientVersionBytes.length = 15 := rfl
  simp only [ProtobufEncoder.create_stream_info_req, ProtobufEncoder.encode_string,
    ProtobufEncoder.encode_int32, t1, t2, t3, t4, t6, hv,
    encode_varint_le127 10 (by norm_num), encode_varint_le127 18 (by norm_num),
    encode_varint_le127 26 (by norm_num), encode_varint_le127 32 (by norm_num),
    encode_varint_le127 50 (by norm_num), encode_varint_le127 15 (by norm_num),
    encode_varint_le127 0 (by norm_num)]
  by_cases hk : key = []
  · simp [hk]
  · simp [hk]

/-- **C10.**  `VTMPacket.encode` rejects every payload longer than 65535
bytes (the `u16` length-field packing raises), and every frame it does
return carries a big-endian length field at bytes 2–3 equal to the payload
length, with the payload following the 8-byte header. -/
theorem claim10_encode_length_field :
    (∀ (data : List Nat) (mc ch sq : Nat), data.length > 65535 →
      VTMPacket.encode data mc ch sq = none) ∧
    (∀ (data : List Nat) (mc ch sq : Nat) (frame : List Nat),
      VTMPacket.encode data mc ch sq = some frame →
      frame.length = 8 + data.length ∧
      ∃ b2 b3, frame.get? 2 = some b2 ∧ frame.get? 3 = some b3 ∧
        b2 * 256 + b3 = data.length ∧ frame.drop 8 = data) := by
  constructor
  · intro data mc ch sq hlen
    rw [VTMPacket.encode, if_pos (by omega)]
  · intro data mc ch sq frame henc
    rw [VTMPacket.encode] at henc
    split at henc
    · exact absurd henc (by simp)
    · have h := Option.some.inj henc
      subst h
      refine ⟨?_, data.length / 256, data.length % 256, ?_, ?_, by omega, ?_⟩
      · simp [List.length_append]
        omega
      · simp
      · simp
      · exact List.drop_left' (by simp)

/-- **C10 witness.** -/
theorem claim10_encode_length_field_witness :
    VTMPacket.encode (List.replicate 65536 0) 0 0 0 = none ∧
    ([0x24, 1, 0, 2, 0, 7, 1, 0x3b, 9, 8].length = 8 + [9, 8].length ∧
      ∃ b2 b3, [0x24, 1, 0, 2, 0, 7, 1, 0x3b, 9, 8].get? 2 = some b2 ∧
        [0x24, 1, 0, 2, 0, 7, 1, 0x3b, 9, 8].get? 3 = some b3 ∧
        b2 * 256 + b3 = [9, 8].length ∧
        [0x24, 1, 0, 2, 0, 7, 1, 0x3b, 9, 8].drop 8 = [9, 8]) :=
  ⟨claim10_encode_length_field.1 (List.replicate 65536 0) 0 0 0
      (by rw [List.length_replicate]; norm_num),
   claim10_encode_length_field.2 [9, 8] 0x13b 1 7 _ rfl⟩

/-- **C2** (code bug).  With idle timeout 30s, last activity at t=0 and both
processes alive, the monitor tick at t=31 flips `running` off under the lock
and then invokes `stop_stream` — but `stop_stream` begins with
`if not self.running: return` and `running` was already cleared, so it
returns without terminating anything: after the tick `is_streaming` is
false, yet both process handles are still set and still alive, contradicting
the module's own stated purpose of stopping the pipeline on idle timeout. -/
theorem claim2_idle_tick_leaves_processes_running :
    StreamManager.monitor_tick
        ⟨true, some ⟨true, true, true⟩, some ⟨true, true, true⟩, 0, 1, 30⟩ 31 =
      .ok ⟨false, some ⟨true, true, true⟩, some ⟨true, true, true⟩, 0, 1, 30⟩ ∧
    StreamManager.is_streaming
        ⟨false, some ⟨true, true, true⟩, some ⟨true, true, true⟩, 0, 1, 30⟩ = false ∧
    StreamManager.procAlive (some ⟨true, true, true⟩) = true :=
  ⟨rfl, rfl, rfl⟩

/-- **C4 counterexample.**  A state in which the capture process
(`_python_proc`) has exited while the segmenter (`self.process`) is still
alive: the claim says `is_streaming` returns false here, but the code only
polls `self.process`, so it returns true. -/
theorem claim4_capture_dead_still_streaming :
    StreamManager.is_streaming
      ⟨true, some ⟨true, true, true⟩, some ⟨false, true, true⟩, 5, 1, 30⟩ = true :=
  rfl

/-- **C4** (amended: the liveness poll is on the segmenter handle).
`is_streaming` returns true iff the running flag is set and the
ffmpeg/segmenter handle `self.process` reports still-alive; in particular,
if the capture process has exited while the segmenter is still alive,
`is_streaming` still returns true. -/
theorem claim4_is_streaming_polls_segmenter :
    (∀ s : StreamManager.ManagerState,
      StreamManager.is_streaming s = true ↔
        s.running = true ∧ ∃ p, s.process = some p ∧ p.alive = true) ∧
    (∀ (s : StreamManager.ManagerState) (pyP : StreamManager.Proc),
      s.pythonProc = some pyP → pyP.alive = false → s.running = true →
      StreamManager.procAlive s.process = true →
      StreamManager.is_streaming s = true) := by
  constructor
  · intro s
    rcases hp : s.process with _ | p
    · simp [StreamManager.is_streaming, StreamManager.procAlive, hp]
    · simp [StreamManager.is_streaming, StreamManager.procAlive, hp]
  · intro s pyP _ _ hr ha
    rw [StreamManager.is_streaming, hr, ha]
    rfl

/-- **C4 witness.** -/
theorem claim4_is_streaming_polls_segmenter_witness :
    (StreamManager.is_streaming
        ⟨true, some ⟨true, true, true⟩, some ⟨false, true, true⟩, 5, 1, 30⟩ = true ↔
      (true = true ∧ ∃ p, (some (⟨true, true, true⟩ : StreamManager.Proc) = some p ∧
        p.alive = true))) ∧
    StreamManager.is_streaming
        ⟨true, some ⟨true, true, true⟩, some ⟨false, true, true⟩, 5, 1, 30⟩ = true :=
  ⟨claim4_is_streaming_polls_segmenter.1
      ⟨true, some ⟨true, true, true⟩, some ⟨false, true, true⟩, 5, 1, 30⟩,
   claim4_is_streaming_polls_segmenter.2
      ⟨true, some ⟨true, true, true⟩, some ⟨false, true, true⟩, 5, 1, 30⟩
      ⟨false, true, true⟩ rfl rfl rfl rfl⟩

/-- **C5.**  `start_stream` is idempotent while the pipeline is alive: when
already running with a live segmenter handle it only refreshes the
last-activity timestamp; and two consecutive calls from the idle state
spawn exactly one process pair (the one from the first call) and increment
the restart counter exactly once. -/
theorem claim5_start_stream_idempotent :
    (∀ (s : StreamManager.ManagerState) (pyP ffP : StreamManager.Proc) (now : Nat),
      s.running = true → StreamManager.procAlive s.process = true →
      StreamManager.start_stream s pyP ffP now = { s with lastActivity := now }) ∧
    (∀ (s : StreamManager.ManagerState) (pyP ffP pyP2 ffP2 : StreamManager.Proc)
       (t1 t2 : Nat),
      s.running = false → ffP.alive = true →
      StreamManager.start_stream (StreamManager.start_stream s pyP ffP t1) pyP2 ffP2 t2 =
        { s with running := true, process := some ffP, pythonProc := some pyP,
                 restartCount := s.restartCount + 1, lastActivity := t2 }) := by
  constructor
  · intro s pyP ffP now hr ha
    rw [StreamManager.start_stream, hr, ha]
    rfl
  · intro s pyP ffP pyP2 ffP2 t1 t2 hr ha
    have hfirst : StreamManager.start_stream s pyP ffP t1 =
        { s with running := true, process := some ffP, pythonProc := some pyP,
                 restartCount := s.restartCount + 1, lastActivity := t1 } := by
      rw [StreamManager.start_stream, hr]
      rfl
    rw [hfirst, StreamManager.start_stream]
    simp [StreamManager.procAlive, ha]

/-- **C5 witness.** -/
theorem claim5_start_stream_idempotent_witness :
    StreamManager.start_stream
        (StreamManager.start_stream ⟨false, none, none, 0, 0, 30⟩
          ⟨true, true, true⟩ ⟨true, true, true⟩ 1)
        ⟨true, true, true⟩ ⟨true, true, true⟩ 2 =
      ⟨true, some ⟨true, true, true⟩, some ⟨true, true, true⟩, 2, 1, 30⟩ :=
  claim5_start_stream_idempotent.2 ⟨false, none, none, 0, 0, 30⟩
    ⟨true, true, true⟩ ⟨true, true, true⟩ ⟨true, true, true⟩ ⟨true, true, true⟩
    1 2 rfl rfl

/-- **C6 counterexample.**  An execution of `stop_stream` in which the
capture process's `terminate()`/`wait()` raises and the fallback `kill()`
also raises: the `kill()` call sits inside the bare `except:` handler and is
itself unprotected, so the failure propagates to the caller and the method
returns with both handles still set (only the running flag was cleared). -/
theorem claim6_kill_failure_propagates :
    StreamManager.stop_stream
        ⟨true, some ⟨true, true, true⟩, some ⟨true, false, false⟩, 0, 1, 30⟩ =
      .error ⟨false, some ⟨true, true, true⟩, some ⟨true, false, false⟩, 0, 1, 30⟩ :=
  rfl

/-- **C6** (amended: kill failures are not swallowed).  `stop_stream` is a
no-op when the running flag is clear; when running and each supervised
process can be stopped by graceful termination or by the fallback kill, it
returns normally with the running flag clear and both handles cleared; but
when a fallback `kill()` itself fails the exception propagates to the
caller, leaving the running flag clear while the handles are not cleared. -/
theorem claim6_stop_stream_behaviour :
    (∀ s : StreamManager.ManagerState, s.running = false →
      StreamManager.stop_stream s = .ok s) ∧
    (∀ s : StreamManager.ManagerState, s.running = true →
      StreamManager.stopProcOk s.pythonProc = true →
      StreamManager.stopProcOk s.process = true →
      StreamManager.stop_stream s =
        .ok { s with running := false, process := none, pythonProc := none }) ∧
    (∀ s s' : StreamManager.ManagerState,
      StreamManager.stop_stream s = .error s' →
      s'.running = false ∧
      (StreamManager.stopProcOk s'.pythonProc = false ∨
        StreamManager.stopProcOk s'.process = false)) := by
  refine ⟨fun s hr => ?_, fun s hr h1 h2 => ?_, fun s s' herr => ?_⟩
  · rw [StreamManager.stop_stream, hr]
    rfl
  · rw [StreamManager.stop_stream, hr]
    simp only [h1, h2, Bool.not_true, Bool.false_eq_true, if_false, if_neg]
  · rw [StreamManager.stop_stream] at herr
    split at herr
    · exact absurd herr (by simp)
    · rename_i hrun
      by_cases h1 : StreamManager.stopProcOk s.pythonProc
      · rw [if_neg (by simp [h1])] at herr
        by_cases h2 : StreamManager.stopProcOk s.process
        · rw [if_neg (by simp [h2])] at herr
          exact absurd herr (by simp)
        · rw [if_pos (by simp [h2])] at herr
          have hs := Except.error.inj herr
          subst hs
          exact ⟨rfl, Or.inr (by simpa using h2)⟩
      · rw [if_pos (by simp [h1])] at herr
        have hs := Except.error.inj herr
        subst hs
        exact ⟨rfl, Or.inl (by simpa using h1)⟩

/-- **C6 witness.** -/
theorem claim6_stop_stream_behaviour_witness :
    StreamManager.stop_stream ⟨false, none, none, 3, 2, 30⟩ =
      .ok ⟨false, none, none, 3, 2, 30⟩ ∧
    StreamManager.stop_stream
        ⟨true, some ⟨true, true, true⟩, some ⟨true, true, true⟩, 3, 2, 30⟩ =
      .ok ⟨false, none, none, 3, 2, 30⟩ ∧
    ((⟨false, some ⟨true, true, true⟩, some ⟨true, false, false⟩, 0, 1, 30⟩ :
        StreamManager.ManagerState).running = false ∧
      (StreamManager.stopProcOk (some ⟨true, false, false⟩) = false ∨
        StreamManager.stopProcOk (some ⟨true, true, true⟩) = false)) :=
  ⟨claim6_stop_stream_behaviour.1 ⟨false, none, none, 3, 2, 30⟩ rfl,
   claim6_stop_stream_behaviour.2.1
      ⟨true, some ⟨true, true, true⟩, some ⟨true, true, true⟩, 3, 2, 30⟩ rfl rfl rfl,
   claim6_stop_stream_behaviour.2.2
      ⟨true, some ⟨true, true, true⟩, some ⟨true, false, false⟩, 0, 1, 30⟩
      ⟨false, some ⟨true, true, true⟩, some ⟨true, false, false⟩, 0, 1, 30⟩ rfl⟩
